import Mathlib

/-!
Shallow embedding of `session.go` from coredgeio/goecsclient.

The Go methods `Get`, `Post`, `Put`, `performLogin` and the constructor
`createEcsSession` are modelled as pure functions.  Effects of the
environment are passed in explicitly:

* the result of `http.NewRequest` is modelled by a boolean `reqOk`
  (`false` means request construction failed, so the Go value `req` is
  `nil` and the immediately following field accesses panic);
* the result of `s.c.Do(req)` is an `Except String HttpResponse`
  (`.error e` is a transport-level failure in which no response was
  received, `e` standing for the opaque underlying Go error);
* reading the response body (`io.ReadAll`) is part of the response value
  (`BodyRead`), distinguishing a nil `resp.Body`, a read error, and the
  bytes actually read.

Bytes are `List Nat`.  Header maps are association lists; Go canonicalises
MIME header keys, which we model by requiring exact key match (all keys the
code uses are passed in one fixed spelling).
-/

namespace GoEcs

abbrev Bytes := List Nat

/-- The error values produced by the repository's `errors` package, whose
source is not in the repository snapshot.  Modelled from the spec: the error
taxonomy needs exactly "parse bytes → structured error object"
(`ParseError`), "wrap a bare status line → structured error object"
(`Wrap`), and transport errors that are "propagated verbatim to the caller;
not classified into the service error type" (`goError`). -/
inductive EcsError where
  | parsed (body : Bytes)
  | wrapped (msg : String)
  | goError (msg : String)
deriving Repr, DecidableEq

/-- Modelled from the spec: `errors.ParseError` of the missing `errors`
package, the "parse bytes → structured error object" entry point. -/
def ParseError (b : Bytes) : EcsError := .parsed b

/-- Modelled from the spec: `errors.Wrap` of the missing `errors` package,
the "wrap a bare status line → structured error object" entry point. -/
def Wrap (msg : String) : EcsError := .wrapped msg

/-- Result of reading `resp.Body`: Go distinguishes a nil `Body` (in which
case `bodyBytes` stays nil), a failing `io.ReadAll`, and the bytes read. -/
inductive BodyRead where
  | noBody
  | readErr (e : String)
  | bytes (bs : Bytes)
deriving Repr, DecidableEq

/-- An `*http.Response` as far as `session.go` inspects it. `status` is the
status line (Go `resp.Status`, e.g. "404 Not Found"). -/
structure HttpResponse where
  statusCode : Nat
  status : String
  headers : List (String × String)
  body : BodyRead
deriving Repr, DecidableEq

/-- Go `Header.Get`: first value stored for the key, `""` if absent. -/
def headerGet (hs : List (String × String)) (k : String) : String :=
  match hs.find? (fun p => p.1 == k) with
  | some p => p.2
  | none => ""

/-- Go `Header.Set`: replace every value stored for the key by the single
new value. -/
def headerSet (hs : List (String × String)) (k v : String) :
    List (String × String) :=
  hs.filter (fun p => p.1 != k) ++ [(k, v)]

/-- An `*http.Request` as far as `session.go` builds it. -/
structure Request where
  method : String
  url : String
  rawQuery : String
  headers : List (String × String)
  basicAuth : Option (String × String)
  body : Option Bytes
deriving Repr, DecidableEq

/-- `http.NewRequest`: on failure Go returns `nil` for the request; the
model takes the success of construction as the boolean `reqOk`. -/
def newRequest (reqOk : Bool) (method url : String) (body : Option Bytes) :
    Option Request :=
  if reqOk then
    some { method := method, url := url, rawQuery := "",
           headers := [], basicAuth := none, body := body }
  else none

/-- The `ecsSession` struct (the `*http.Client` handle is left out: calls
through it are modelled by the explicit `doRes` argument). -/
structure ecsSession where
  Username : String
  Password : String
  Endpoint : String
  Token : String
deriving Repr, DecidableEq

def TimeBufferInSeconds : Int := 300

/-- Outcome of a `Get`/`Post`/`Put` call.  `.panics` models the nil-request
dereference; `.ok` carries `bodyBytes`, which is Go-nil (`none`) when
`resp.Body` was nil. -/
inductive ReqOutcome where
  | panics
  | err (e : EcsError)
  | ok (body : Option Bytes)
deriving Repr, DecidableEq

/-- The shared tail of `Get`/`Post`/`Put`: read the body, then classify the
status code with the method's success predicate.  Mirrors lines 40-64 (and
their copies in `Post`/`Put`) of `session.go`. -/
def classify (success : Nat → Bool) (doRes : Except String HttpResponse) :
    ReqOutcome :=
  match doRes with
  | .error e => .err (.goError e)
  | .ok resp =>
    match resp.body with
    | .readErr e => .err (.goError e)
    | .noBody =>
      if success resp.statusCode then .ok none
      else .err (Wrap resp.status)
    | .bytes bs =>
      if success resp.statusCode then .ok (some bs)
      else .err (ParseError bs)

def is200 (c : Nat) : Bool := c == 200

def is200or201 (c : Nat) : Bool := c == 200 || c == 201

/-- The request `Get` dispatches (lines 29-38): construction, optional
query string, token and Accept headers, then caller-supplied headers
applied by `Header.Set`. -/
def buildGetRequest (s : ecsSession) (reqOk : Bool) (subUrl : String)
    (q : Option String) (headers : List (String × String)) : Option Request :=
  match newRequest reqOk "GET" (s.Endpoint ++ subUrl) none with
  | none => none
  | some req =>
    let req := match q with
      | some qs => { req with rawQuery := qs }
      | none => req
    let hs := headerSet req.headers "X-SDS-AUTH-TOKEN" s.Token
    let hs := headerSet hs "Accept" "application/json"
    let hs := headers.foldl (fun acc p => headerSet acc p.1 p.2) hs
    some { req with headers := hs }

/-- `(s *ecsSession) Get`.  When request construction fails the construction
error is shadowed and `req.URL` / `req.Header` are dereferenced on a nil
request, which panics. -/
def Get (s : ecsSession) (reqOk : Bool) (subUrl : String) (q : Option String)
    (headers : List (String × String)) (doRes : Except String HttpResponse) :
    ReqOutcome :=
  match buildGetRequest s reqOk subUrl q headers with
  | none => .panics
  | some _ => classify is200 doRes

/-- The request `Post` dispatches (lines 68-78): like `Get` with a body,
plus `Content-Type`, set before `Accept` as in the source. -/
def buildPostRequest (s : ecsSession) (reqOk : Bool) (subUrl : String)
    (d : Bytes) (q : Option String) (headers : List (String × String)) :
    Option Request :=
  match newRequest reqOk "POST" (s.Endpoint ++ subUrl) (some d) with
  | none => none
  | some req =>
    let req := match q with
      | some qs => { req with rawQuery := qs }
      | none => req
    let hs := headerSet req.headers "X-SDS-AUTH-TOKEN" s.Token
    let hs := headerSet hs "Content-Type" "application/json"
    let hs := headerSet hs "Accept" "application/json"
    let hs := headers.foldl (fun acc p => headerSet acc p.1 p.2) hs
    some { req with headers := hs }

/-- `(s *ecsSession) Post`. -/
def Post (s : ecsSession) (reqOk : Bool) (subUrl : String) (d : Bytes)
    (q : Option String) (headers : List (String × String))
    (doRes : Except String HttpResponse) : ReqOutcome :=
  match buildPostRequest s reqOk subUrl d q headers with
  | none => .panics
  | some _ => classify is200or201 doRes

/-- The request `Put` dispatches (lines 107-113): no caller-supplied
headers parameter exists. -/
def buildPutRequest (s : ecsSession) (reqOk : Bool) (subUrl : String)
    (d : Bytes) (q : Option String) : Option Request :=
  match newRequest reqOk "PUT" (s.Endpoint ++ subUrl) (some d) with
  | none => none
  | some req =>
    let req := match q with
      | some qs => { req with rawQuery := qs }
      | none => req
    let hs := headerSet req.headers "X-SDS-AUTH-TOKEN" s.Token
    let hs := headerSet hs "Content-Type" "application/json"
    let hs := headerSet hs "Accept" "application/json"
    some { req with headers := hs }

/-- `(s *ecsSession) Put`. -/
def Put (s : ecsSession) (reqOk : Bool) (subUrl : String) (d : Bytes)
    (q : Option String) (doRes : Except String HttpResponse) : ReqOutcome :=
  match buildPutRequest s reqOk subUrl d q with
  | none => .panics
  | some _ => classify is200or201 doRes

/-- Go `strconv.ParseInt(s, 10, 64)`: optional single sign, then one or
more ASCII decimal digits, rejected on int64 overflow. -/
def parseInt64 (str : String) : Option Int :=
  let cs := str.toList
  let (neg, ds) :=
    match cs with
    | '-' :: rest => (true, rest)
    | '+' :: rest => (false, rest)
    | rest => (false, rest)
  if ds.isEmpty || !(ds.all Char.isDigit) then none
  else
    let mag : Nat := ds.foldl (fun a c => a * 10 + (c.toNat - 48)) 0
    let v : Int := if neg then -(mag : Int) else (mag : Int)
    if v < -(2 ^ 63) || v > 2 ^ 63 - 1 then none else some v

/-- Outcome of `performLogin`.  Go mutates the session in place; the model
returns the resulting session.  `sched` is the sleep delay, in seconds, of
the one background refresh goroutine spawned, if any. -/
inductive LoginOutcome where
  | panics
  | failure (s : ecsSession) (e : EcsError)
  | success (s : ecsSession) (sched : Option Int)
deriving Repr, DecidableEq

/-- Lines 162-187 of `performLogin`: extract the token, and the scheduled
refresh delay.  The goroutine body computes
`if age > TimeBufferInSeconds { age = age - TimeBufferInSeconds }` and
sleeps for `age` seconds. -/
def loginExtract (resp : HttpResponse) : String × Option Int :=
  if resp.headers.length ≠ 0 then
    if headerGet resp.headers "X-SDS-AUTH-MAX-AGE" ≠ "" ∧
        headerGet resp.headers "X-SDS-AUTH-TOKEN" ≠ "" then
      match parseInt64 (headerGet resp.headers "X-SDS-AUTH-MAX-AGE") with
      | none => (headerGet resp.headers "X-SDS-AUTH-TOKEN", none)
      | some age =>
        (headerGet resp.headers "X-SDS-AUTH-TOKEN",
         some (if age > TimeBufferInSeconds then age - TimeBufferInSeconds
               else age))
    else (headerGet resp.headers "X-SDS-AUTH-TOKEN", none)
  else ("", none)

/-- `(s *ecsSession) performLogin` (lines 144-193).  The construction error
of `http.NewRequest` is shadowed; `req.SetBasicAuth` on a nil request
panics. -/
def performLogin (s : ecsSession) (reqOk : Bool)
    (doRes : Except String HttpResponse) : LoginOutcome :=
  match newRequest reqOk "GET" (s.Endpoint ++ "/login") none with
  | none => .panics
  | some _ =>
    match doRes with
    | .error e => .failure s (.goError e)
    | .ok resp =>
      if resp.statusCode ≠ 200 then
        .failure s (Wrap "login request failed, check endpoint or credentials")
      else
        if (loginExtract resp).1 ≠ "" then
          .success { s with Token := (loginExtract resp).1 }
            (loginExtract resp).2
        else .failure s (Wrap "Auth Token not available in response")

/-- Outcome of `createEcsSession`. -/
inductive CreateOutcome where
  | panics
  | error (e : EcsError)
  | ok (s : ecsSession)
deriving Repr, DecidableEq

/-- `createEcsSession` (lines 195-213): build the session with the zero
value for `Token`, log in synchronously, fail construction on login
failure. -/
def createEcsSession (username password endpoint : String) (reqOk : Bool)
    (doRes : Except String HttpResponse) : CreateOutcome :=
  let s : ecsSession :=
    { Username := username, Password := password, Endpoint := endpoint,
      Token := "" }
  match performLogin s reqOk doRes with
  | .panics => .panics
  | .failure _ e => .error e
  | .success s' _ => .ok s'

/-! ### Helper lemmas -/

theorem headerGet_nil (k : String) : headerGet [] k = "" := rfl

theorem headerGet_ne_empty_headers_ne_nil {hs : List (String × String)}
    {k : String} (h : headerGet hs k ≠ "") : hs.length ≠ 0 := by
  intro hlen
  apply h
  have : hs = [] := List.length_eq_zero.mp hlen
  rw [this]
  rfl

theorem performLogin_true_ok (s : ecsSession) (resp : HttpResponse) :
    performLogin s true (.ok resp) =
      (if resp.statusCode ≠ 200 then
        .failure s (Wrap "login request failed, check endpoint or credentials")
      else
        if (loginExtract resp).1 ≠ "" then
          .success { s with Token := (loginExtract resp).1 } (loginExtract resp).2
        else .failure s (Wrap "Auth Token not available in response")) := by
  rfl

theorem loginExtract_fst (resp : HttpResponse) :
    (loginExtract resp).1 = headerGet resp.headers "X-SDS-AUTH-TOKEN" := by
  unfold loginExtract
  by_cases hlen : resp.headers.length ≠ 0
  · rw [if_pos hlen]
    split
    · split <;> rfl
    · rfl
  · rw [if_neg hlen]
    push_neg at hlen
    have : resp.headers = [] := List.length_eq_zero.mp hlen
    rw [this]
    rfl

theorem loginExtract_snd_of_age (resp : HttpResponse) (age : Int)
    (htok : headerGet resp.headers "X-SDS-AUTH-TOKEN" ≠ "")
    (hage : parseInt64 (headerGet resp.headers "X-SDS-AUTH-MAX-AGE") = some age) :
    (loginExtract resp).2 =
      some (if age > TimeBufferInSeconds then age - TimeBufferInSeconds
            else age) := by
  have hma : headerGet resp.headers "X-SDS-AUTH-MAX-AGE" ≠ "" := by
    intro h
    rw [h] at hage
    exact Option.noConfusion hage
  unfold loginExtract
  rw [if_pos (headerGet_ne_empty_headers_ne_nil htok), if_pos ⟨hma, htok⟩, hage]

theorem loginExtract_snd_of_none (resp : HttpResponse)
    (hbad : parseInt64 (headerGet resp.headers "X-SDS-AUTH-MAX-AGE") = none) :
    (loginExtract resp).2 = none := by
  unfold loginExtract
  by_cases hlen : resp.headers.length ≠ 0
  · rw [if_pos hlen]
    split
    · rw [hbad]
    · rfl
  · rw [if_neg hlen]

/-! ### Claim theorems -/

/-- C3: `performLogin` returns success if and only if the HTTP response has
status 200 and a non-empty `X-SDS-AUTH-TOKEN` header; on success the
session's `Token` field is set to that header value synchronously, in the
session state `performLogin` returns. -/
theorem performLogin_success_iff (s : ecsSession) (resp : HttpResponse) :
    ((∃ s' sched, performLogin s true (.ok resp) = .success s' sched) ↔
      (resp.statusCode = 200 ∧
        headerGet resp.headers "X-SDS-AUTH-TOKEN" ≠ "")) ∧
    (∀ s' sched, performLogin s true (.ok resp) = .success s' sched →
      s' = { s with Token := headerGet resp.headers "X-SDS-AUTH-TOKEN" }) := by
  rw [performLogin_true_ok]
  by_cases h200 : resp.statusCode = 200
  · by_cases htok : headerGet resp.headers "X-SDS-AUTH-TOKEN" = ""
    · simp [h200, loginExtract_fst, htok]
    · simp [h200, loginExtract_fst, htok]
  · simp [h200]

/-- C3 witness: a concrete 200 response carrying token "abc" yields
success. -/
theorem performLogin_success_iff_witness :
    ∃ s' sched,
      performLogin ⟨"u", "p", "http://ecs", "old"⟩ true
        (.ok ⟨200, "200 OK", [("X-SDS-AUTH-TOKEN", "abc")], .noBody⟩) =
        .success s' sched :=
  (performLogin_success_iff ⟨"u", "p", "http://ecs", "old"⟩
    ⟨200, "200 OK", [("X-SDS-AUTH-TOKEN", "abc")], .noBody⟩).1.mpr
    (by constructor <;> decide)

/-- C1 counterexample: with maxAge = 200 the scheduled refresh delay is 200
seconds (the code subtracts the 300-second buffer only when maxAge exceeds
it), not max(0, 200 − 300) = 0 as the claim states. -/
theorem performLogin_delay_not_max_cex :
    performLogin ⟨"u", "p", "http://ecs", "old"⟩ true
      (.ok ⟨200, "200 OK",
        [("X-SDS-AUTH-TOKEN", "abc"), ("X-SDS-AUTH-MAX-AGE", "200")],
        .noBody⟩) =
      .success ⟨"u", "p", "http://ecs", "abc"⟩ (some 200) ∧
    ¬ performLogin ⟨"u", "p", "http://ecs", "old"⟩ true
      (.ok ⟨200, "200 OK",
        [("X-SDS-AUTH-TOKEN", "abc"), ("X-SDS-AUTH-MAX-AGE", "200")],
        .noBody⟩) =
      .success ⟨"u", "p", "http://ecs", "abc"⟩
        (some (max 0 (200 - TimeBufferInSeconds))) := by
  constructor <;> decide

/-- C1 (amended): a successful `performLogin` whose response carries a
non-empty token header and a parseable maxAge header schedules exactly one
deferred re-login, whose sleep delay is maxAge − 300 seconds when
maxAge > 300 and maxAge seconds otherwise. -/
theorem performLogin_schedules_refresh (s : ecsSession) (resp : HttpResponse)
    (age : Int) (h200 : resp.statusCode = 200)
    (htok : headerGet resp.headers "X-SDS-AUTH-TOKEN" ≠ "")
    (hage : parseInt64 (headerGet resp.headers "X-SDS-AUTH-MAX-AGE") =
      some age) :
    performLogin s true (.ok resp) =
      .success { s with Token := headerGet resp.headers "X-SDS-AUTH-TOKEN" }
        (some (if age > TimeBufferInSeconds then age - TimeBufferInSeconds
               else age)) := by
  rw [performLogin_true_ok]
  rw [if_neg (by simp [h200])]
  rw [loginExtract_fst, if_pos htok, loginExtract_snd_of_age resp age htok hage]

/-- C1 witness: maxAge = 400 schedules a 100-second refresh. -/
theorem performLogin_schedules_refresh_witness :
    performLogin ⟨"u", "p", "http://ecs", "old"⟩ true
      (.ok ⟨200, "200 OK",
        [("X-SDS-AUTH-TOKEN", "abc"), ("X-SDS-AUTH-MAX-AGE", "400")],
        .noBody⟩) =
      .success ⟨"u", "p", "http://ecs", "abc"⟩ (some 100) := by
  have h := performLogin_schedules_refresh ⟨"u", "p", "http://ecs", "old"⟩
    ⟨200, "200 OK",
      [("X-SDS-AUTH-TOKEN", "abc"), ("X-SDS-AUTH-MAX-AGE", "400")], .noBody⟩
    400 (by decide) (by decide) (by decide)
  rw [h]
  decide

/-- C4 counterexample: the generic login-failure message in the code is
"login request failed, check endpoint or credentials", not the claim's
"login failed, check endpoint or credentials"; the missing-token message is
"Auth Token not available in response", not "auth token not available". -/
theorem performLogin_error_strings_cex :
    performLogin ⟨"u", "p", "http://ecs", "old"⟩ true
      (.ok ⟨500, "500 Internal Server Error", [], .noBody⟩) =
      .failure ⟨"u", "p", "http://ecs", "old"⟩
        (Wrap "login request failed, check endpoint or credentials") ∧
    ¬ performLogin ⟨"u", "p", "http://ecs", "old"⟩ true
      (.ok ⟨500, "500 Internal Server Error", [], .noBody⟩) =
      .failure ⟨"u", "p", "http://ecs", "old"⟩
        (Wrap "login failed, check endpoint or credentials") ∧
    performLogin ⟨"u", "p", "http://ecs", "old"⟩ true
      (.ok ⟨200, "200 OK", [("Date", "x")], .noBody⟩) =
      .failure ⟨"u", "p", "http://ecs", "old"⟩
        (Wrap "Auth Token not available in response") ∧
    ¬ performLogin ⟨"u", "p", "http://ecs", "old"⟩ true
      (.ok ⟨200, "200 OK", [("Date", "x")], .noBody⟩) =
      .failure ⟨"u", "p", "http://ecs", "old"⟩
        (Wrap "auth token not available") := by
  refine ⟨by decide, by decide, by decide, by decide⟩

/-- C4 (amended): `performLogin` failures are classified: a non-200 status
yields the generic wrapped error "login request failed, check endpoint or
credentials"; a 200 status with a missing or empty token header yields the
wrapped error "Auth Token not available in response"; a transport-level
failure propagates the underlying transport error verbatim, unclassified. -/
theorem performLogin_error_classification (s : ecsSession)
    (resp : HttpResponse) (e : String) :
    (resp.statusCode ≠ 200 →
      performLogin s true (.ok resp) =
        .failure s
          (Wrap "login request failed, check endpoint or credentials")) ∧
    (resp.statusCode = 200 →
      headerGet resp.headers "X-SDS-AUTH-TOKEN" = "" →
      performLogin s true (.ok resp) =
        .failure s (Wrap "Auth Token not available in response")) ∧
    performLogin s true (.error e) = .failure s (.goError e) := by
  refine ⟨fun h200 => ?_, fun h200 htok => ?_, rfl⟩
  · rw [performLogin_true_ok, if_pos h200]
  · rw [performLogin_true_ok, if_neg (by simp [h200]),
      if_neg (by rw [loginExtract_fst]; simp [htok])]

/-- C4 witness: concrete instances of the three failure classes. -/
theorem performLogin_error_classification_witness :
    performLogin ⟨"u", "p", "http://ecs", "old"⟩ true
      (.ok ⟨401, "401 Unauthorized", [], .noBody⟩) =
      .failure ⟨"u", "p", "http://ecs", "old"⟩
        (Wrap "login request failed, check endpoint or credentials") ∧
    performLogin ⟨"u", "p", "http://ecs", "old"⟩ true
      (.ok ⟨200, "200 OK", [], .noBody⟩) =
      .failure ⟨"u", "p", "http://ecs", "old"⟩
        (Wrap "Auth Token not available in response") ∧
    performLogin ⟨"u", "p", "http://ecs", "old"⟩ true
      (.error "dial tcp: connection refused") =
      .failure ⟨"u", "p", "http://ecs", "old"⟩
        (.goError "dial tcp: connection refused") := by
  have h := performLogin_error_classification ⟨"u", "p", "http://ecs", "old"⟩
    ⟨401, "401 Unauthorized", [], .noBody⟩ "dial tcp: connection refused"
  have h2 := performLogin_error_classification ⟨"u", "p", "http://ecs", "old"⟩
    ⟨200, "200 OK", [], .noBody⟩ "dial tcp: connection refused"
  exact ⟨h.1 (by decide), h2.2.1 (by decide) (by decide), h.2.2⟩

/-- C8: if the maxAge header is absent or unparsable as an integer, no
refresh is scheduled, and `performLogin` still succeeds provided the status
is 200 and the token header is non-empty. -/
theorem performLogin_no_refresh_invalid_maxAge (s : ecsSession)
    (resp : HttpResponse) (h200 : resp.statusCode = 200)
    (htok : headerGet resp.headers "X-SDS-AUTH-TOKEN" ≠ "")
    (hbad : parseInt64 (headerGet resp.headers "X-SDS-AUTH-MAX-AGE") =
      none) :
    performLogin s true (.ok resp) =
      .success { s with Token := headerGet resp.headers "X-SDS-AUTH-TOKEN" }
        none := by
  rw [performLogin_true_ok, if_neg (by simp [h200])]
  rw [loginExtract_fst, if_pos htok, loginExtract_snd_of_none resp hbad]

/-- C8 witness: an absent maxAge header and an unparsable one both yield
success with no scheduled refresh. -/
theorem performLogin_no_refresh_invalid_maxAge_witness :
    performLogin ⟨"u", "p", "http://ecs", "old"⟩ true
      (.ok ⟨200, "200 OK", [("X-SDS-AUTH-TOKEN", "abc")], .noBody⟩) =
      .success ⟨"u", "p", "http://ecs", "abc"⟩ none ∧
    performLogin ⟨"u", "p", "http://ecs", "old"⟩ true
      (.ok ⟨200, "200 OK",
        [("X-SDS-AUTH-TOKEN", "abc"), ("X-SDS-AUTH-MAX-AGE", "soon")],
        .noBody⟩) =
      .success ⟨"u", "p", "http://ecs", "abc"⟩ none := by
  constructor
  · have h := performLogin_no_refresh_invalid_maxAge
      ⟨"u", "p", "http://ecs", "old"⟩
      ⟨200, "200 OK", [("X-SDS-AUTH-TOKEN", "abc")], .noBody⟩
      (by decide) (by decide) (by decide)
    rw [h]
    decide
  · have h := performLogin_no_refresh_invalid_maxAge
      ⟨"u", "p", "http://ecs", "old"⟩
      ⟨200, "200 OK",
        [("X-SDS-AUTH-TOKEN", "abc"), ("X-SDS-AUTH-MAX-AGE", "soon")],
        .noBody⟩
      (by decide) (by decide) (by decide)
    rw [h]
    decide

/-- The Go variable `bodyBytes` after the read: nil (`none`) when
`resp.Body` was nil, otherwise the bytes read. -/
def bodyBytes? : BodyRead → Option Bytes
  | .bytes bs => some bs
  | _ => none

theorem Get_true (s : ecsSession) (subUrl : String) (q : Option String)
    (hs : List (String × String)) (doRes : Except String HttpResponse) :
    Get s true subUrl q hs doRes = classify is200 doRes := by
  cases q <;> rfl

theorem Post_true (s : ecsSession) (subUrl : String) (d : Bytes)
    (q : Option String) (hs : List (String × String))
    (doRes : Except String HttpResponse) :
    Post s true subUrl d q hs doRes = classify is200or201 doRes := by
  cases q <;> rfl

theorem Put_true (s : ecsSession) (subUrl : String) (d : Bytes)
    (q : Option String) (doRes : Except String HttpResponse) :
    Put s true subUrl d q doRes = classify is200or201 doRes := by
  cases q <;> rfl

theorem classify_nonsuccess_bytes (p : Nat → Bool) (resp : HttpResponse)
    (bs : Bytes) (hb : resp.body = .bytes bs)
    (hp : p resp.statusCode = false) :
    classify p (.ok resp) = .err (ParseError bs) := by
  simp [classify, hb, hp]

theorem classify_nonsuccess_noBody (p : Nat → Bool) (resp : HttpResponse)
    (hb : resp.body = .noBody) (hp : p resp.statusCode = false) :
    classify p (.ok resp) = .err (Wrap resp.status) := by
  simp [classify, hb, hp]

theorem classify_success (p : Nat → Bool) (resp : HttpResponse)
    (hread : ∀ e, resp.body ≠ .readErr e) :
    ((∃ r, classify p (.ok resp) = .ok r) ↔ p resp.statusCode = true) ∧
    (p resp.statusCode = true →
      classify p (.ok resp) = .ok (bodyBytes? resp.body)) := by
  cases hb : resp.body with
  | readErr e => exact absurd hb (hread e)
  | noBody =>
    cases hp : p resp.statusCode <;> simp [classify, hb, hp, bodyBytes?]
  | bytes bs =>
    cases hp : p resp.statusCode <;> simp [classify, hb, hp, bodyBytes?]

/-- C2: for every `Get`, `Post` or `Put` call whose response has a
non-success status, a non-nil body makes the returned error the structured
service error parsed from the body bytes, and a nil (absent) body makes it
the generic error wrapping the HTTP status line. -/
theorem nonsuccess_error_classification (s : ecsSession) (subUrl : String)
    (q : Option String) (hs : List (String × String)) (d : Bytes)
    (resp : HttpResponse) :
    (resp.statusCode ≠ 200 →
      (∀ bs, resp.body = .bytes bs →
        Get s true subUrl q hs (.ok resp) = .err (ParseError bs)) ∧
      (resp.body = .noBody →
        Get s true subUrl q hs (.ok resp) = .err (Wrap resp.status))) ∧
    (resp.statusCode ≠ 200 → resp.statusCode ≠ 201 →
      (∀ bs, resp.body = .bytes bs →
        Post s true subUrl d q hs (.ok resp) = .err (ParseError bs)) ∧
      (resp.body = .noBody →
        Post s true subUrl d q hs (.ok resp) = .err (Wrap resp.status)) ∧
      (∀ bs, resp.body = .bytes bs →
        Put s true subUrl d q (.ok resp) = .err (ParseError bs)) ∧
      (resp.body = .noBody →
        Put s true subUrl d q (.ok resp) = .err (Wrap resp.status))) := by
  constructor
  · intro h200
    have hp : is200 resp.statusCode = false := by simp [is200, h200]
    exact ⟨fun bs hb => by
        rw [Get_true, classify_nonsuccess_bytes is200 resp bs hb hp],
      fun hb => by rw [Get_true, classify_nonsuccess_noBody is200 resp hb hp]⟩
  · intro h200 h201
    have hp : is200or201 resp.statusCode = false := by
      simp [is200or201, h200, h201]
    exact ⟨fun bs hb => by
        rw [Post_true, classify_nonsuccess_bytes is200or201 resp bs hb hp],
      fun hb => by
        rw [Post_true, classify_nonsuccess_noBody is200or201 resp hb hp],
      fun bs hb => by
        rw [Put_true, classify_nonsuccess_bytes is200or201 resp bs hb hp],
      fun hb => by
        rw [Put_true, classify_nonsuccess_noBody is200or201 resp hb hp]⟩

/-- C2 witness: a 404 with body bytes yields the parsed service error; a
404 with nil body yields the wrapped status line. -/
theorem nonsuccess_error_classification_witness :
    Get ⟨"u", "p", "http://ecs", "tok"⟩ true "/x" none []
      (.ok ⟨404, "404 Not Found", [], .bytes [123, 125]⟩) =
      .err (ParseError [123, 125]) ∧
    Get ⟨"u", "p", "http://ecs", "tok"⟩ true "/x" none []
      (.ok ⟨404, "404 Not Found", [], .noBody⟩) = .err (Wrap "404 Not Found") := by
  have h1 := nonsuccess_error_classification ⟨"u", "p", "http://ecs", "tok"⟩
    "/x" none [] [] ⟨404, "404 Not Found", [], .bytes [123, 125]⟩
  have h2 := nonsuccess_error_classification ⟨"u", "p", "http://ecs", "tok"⟩
    "/x" none [] [] ⟨404, "404 Not Found", [], .noBody⟩
  exact ⟨(h1.1 (by decide)).1 [123, 125] rfl, (h2.1 (by decide)).2 rfl⟩

/-- C5: given a response (with a readable body), `Get` succeeds exactly on
status 200, `Post` and `Put` exactly on 200 or 201, and every success
returns no error together with exactly the bytes read from the response
body. -/
theorem request_success_statuses (s : ecsSession) (subUrl : String)
    (q : Option String) (hs : List (String × String)) (d : Bytes)
    (resp : HttpResponse) (hread : ∀ e, resp.body ≠ .readErr e) :
    ((∃ r, Get s true subUrl q hs (.ok resp) = .ok r) ↔
      resp.statusCode = 200) ∧
    (resp.statusCode = 200 →
      Get s true subUrl q hs (.ok resp) = .ok (bodyBytes? resp.body)) ∧
    ((∃ r, Post s true subUrl d q hs (.ok resp) = .ok r) ↔
      (resp.statusCode = 200 ∨ resp.statusCode = 201)) ∧
    ((resp.statusCode = 200 ∨ resp.statusCode = 201) →
      Post s true subUrl d q hs (.ok resp) = .ok (bodyBytes? resp.body)) ∧
    ((∃ r, Put s true subUrl d q (.ok resp) = .ok r) ↔
      (resp.statusCode = 200 ∨ resp.statusCode = 201)) ∧
    ((resp.statusCode = 200 ∨ resp.statusCode = 201) →
      Put s true subUrl d q (.ok resp) = .ok (bodyBytes? resp.body)) := by
  have hg := classify_success is200 resp hread
  have hp := classify_success is200or201 resp hread
  have e1 : (is200 resp.statusCode = true) ↔ resp.statusCode = 200 := by
    simp [is200]
  have e2 : (is200or201 resp.statusCode = true) ↔
      (resp.statusCode = 200 ∨ resp.statusCode = 201) := by
    simp [is200or201]
  rw [Get_true, Post_true, Put_true]
  exact ⟨hg.1.trans e1, fun h => hg.2 (e1.mpr h),
    hp.1.trans e2, fun h => hp.2 (e2.mpr h),
    hp.1.trans e2, fun h => hp.2 (e2.mpr h)⟩

/-- C5 witness: a 200 response body comes back verbatim from `Get`; a 201
succeeds for `Put` with an empty body. -/
theorem request_success_statuses_witness :
    Get ⟨"u", "p", "http://ecs", "tok"⟩ true "/x" none []
      (.ok ⟨200, "200 OK", [], .bytes [1, 2, 3]⟩) = .ok (some [1, 2, 3]) ∧
    Put ⟨"u", "p", "http://ecs", "tok"⟩ true "/x" [] none
      (.ok ⟨201, "201 Created", [], .bytes []⟩) = .ok (some []) := by
  have h1 := request_success_statuses ⟨"u", "p", "http://ecs", "tok"⟩
    "/x" none [] [] ⟨200, "200 OK", [], .bytes [1, 2, 3]⟩
    (fun e h => BodyRead.noConfusion h)
  have h2 := request_success_statuses ⟨"u", "p", "http://ecs", "tok"⟩
    "/x" none [] [] ⟨201, "201 Created", [], .bytes []⟩
    (fun e h => BodyRead.noConfusion h)
  exact ⟨h1.2.1 rfl, h2.2.2.2.2.2 (Or.inr rfl)⟩

/-- C9: when HTTP request construction fails, `Get`, `Post`, `Put` and
`performLogin` all panic on the nil request instead of returning an error
to the caller. -/
theorem nil_request_panics (s : ecsSession) (subUrl : String)
    (q : Option String) (hs : List (String × String)) (d : Bytes)
    (doRes : Except String HttpResponse) :
    Get s false subUrl q hs doRes = .panics ∧
    Post s false subUrl d q hs doRes = .panics ∧
    Put s false subUrl d q doRes = .panics ∧
    performLogin s false doRes = .panics ∧
    (∀ e, Get s false subUrl q hs doRes ≠ .err e) ∧
    (∀ e, performLogin s false doRes ≠ .failure s e) := by
  refine ⟨rfl, rfl, rfl, rfl, fun e h => ?_, fun e h => ?_⟩
  · simp [Get, buildGetRequest, newRequest] at h
  · simp [performLogin, newRequest] at h

/-- C9 witness: concrete failing construction panics. -/
theorem nil_request_panics_witness :
    Get ⟨"u", "p", ":bad url", "tok"⟩ false "/x" none [] (.error "e") =
      .panics ∧
    performLogin ⟨"u", "p", ":bad url", "tok"⟩ false (.error "e") ≠
      .failure ⟨"u", "p", ":bad url", "tok"⟩ (.goError "e") := by
  have h := nil_request_panics ⟨"u", "p", ":bad url", "tok"⟩ "/x" none []
    [] (.error "e")
  exact ⟨h.1, h.2.2.2.2.2 (.goError "e")⟩

theorem performLogin_failure_state (s : ecsSession) (reqOk : Bool)
    (doRes : Except String HttpResponse) (s' : ecsSession) (e : EcsError)
    (h : performLogin s reqOk doRes = .failure s' e) : s' = s := by
  cases reqOk with
  | false => simp [performLogin, newRequest] at h
  | true =>
    cases doRes with
    | error te =>
      have : performLogin s true (.error te) = .failure s (.goError te) := rfl
      rw [this] at h
      injection h with h1 _
      exact h1.symm
    | ok resp =>
      rw [performLogin_true_ok] at h
      split at h
      · injection h with h1 _
        exact h1.symm
      · split at h
        · exact LoginOutcome.noConfusion h
        · injection h with h1 _
          exact h1.symm

theorem performLogin_success_state (s : ecsSession) (reqOk : Bool)
    (doRes : Except String HttpResponse) (s' : ecsSession)
    (sched : Option Int)
    (h : performLogin s reqOk doRes = .success s' sched) :
    s'.Token ≠ "" ∧ s'.Username = s.Username ∧ s'.Password = s.Password ∧
      s'.Endpoint = s.Endpoint := by
  cases reqOk with
  | false => simp [performLogin, newRequest] at h
  | true =>
    cases doRes with
    | error te =>
      have : performLogin s true (.error te) = .failure s (.goError te) := rfl
      rw [this] at h
      exact LoginOutcome.noConfusion h
    | ok resp =>
      rw [performLogin_true_ok] at h
      split at h
      · exact LoginOutcome.noConfusion h
      · split at h
        · rename_i htok
          injection h with h1 _
          rw [← h1]
          exact ⟨htok, rfl, rfl, rfl⟩
        · exact LoginOutcome.noConfusion h

/-- C6: a session returned by a successful `createEcsSession` has a
non-empty `Token`; `performLogin` leaves the session unchanged on every
failure and installs a non-empty token on every success, so the token is
never empty after successful construction (`Get`/`Post`/`Put` are
read-only on the session in this model and cannot modify it). -/
theorem token_never_empty (u pw ep : String) (reqOk : Bool)
    (doRes : Except String HttpResponse) (s : ecsSession) :
    (∀ s', createEcsSession u pw ep reqOk doRes = .ok s' →
      s'.Token ≠ "") ∧
    (∀ s' e, performLogin s reqOk doRes = .failure s' e → s' = s) ∧
    (∀ s' sched, performLogin s reqOk doRes = .success s' sched →
      s'.Token ≠ "") := by
  refine ⟨fun s' hok => ?_, fun s' e h => performLogin_failure_state s reqOk doRes s' e h,
    fun s' sched h => (performLogin_success_state s reqOk doRes s' sched h).1⟩
  have heq : createEcsSession u pw ep reqOk doRes =
      (match performLogin ⟨u, pw, ep, ""⟩ reqOk doRes with
        | .panics => CreateOutcome.panics
        | .failure _ e => CreateOutcome.error e
        | .success s' _ => CreateOutcome.ok s') := rfl
  rw [heq] at hok
  revert hok
  cases hpl : performLogin (⟨u, pw, ep, ""⟩ : ecsSession) reqOk doRes with
  | panics => intro hok; exact CreateOutcome.noConfusion hok
  | failure s'' e => intro hok; exact CreateOutcome.noConfusion hok
  | success s'' sched =>
    intro hok
    injection hok with h1
    rw [← h1]
    exact (performLogin_success_state ⟨u, pw, ep, ""⟩ reqOk doRes s'' sched
      hpl).1

/-- C6 witness: a concrete successful construction yields token "abc". -/
theorem token_never_empty_witness :
    createEcsSession "u" "p" "http://ecs" true
      (.ok ⟨200, "200 OK", [("X-SDS-AUTH-TOKEN", "abc")], .noBody⟩) =
      .ok ⟨"u", "p", "http://ecs", "abc"⟩ ∧
    ("abc" : String) ≠ "" := by
  refine ⟨by decide, ?_⟩
  exact (token_never_empty "u" "p" "http://ecs" true
    (.ok ⟨200, "200 OK", [("X-SDS-AUTH-TOKEN", "abc")], .noBody⟩)
    ⟨"u", "p", "http://ecs", ""⟩).1 ⟨"u", "p", "http://ecs", "abc"⟩
    (by decide)

theorem find?_filter_key_ne (hs : List (String × String)) (k : String) :
    (hs.filter (fun p => p.1 != k)).find? (fun p => p.1 == k) = none := by
  rw [List.find?_eq_none]
  intro x hx
  have hmem := (List.mem_filter.mp hx).2
  simp only [bne_iff_ne, ne_eq] at hmem
  simp [hmem]

theorem headerGet_headerSet_same (hs : List (String × String))
    (k v : String) : headerGet (headerSet hs k v) k = v := by
  unfold headerGet headerSet
  rw [List.find?_append, find?_filter_key_ne]
  simp

theorem headerGet_headerSet_other (hs : List (String × String))
    (k k' v : String) (h : k' ≠ k) :
    headerGet (headerSet hs k v) k' = headerGet hs k' := by
  unfold headerGet headerSet
  rw [List.find?_append]
  have h1 : ([(k, v)] : List (String × String)).find?
      (fun p => p.1 == k') = none := by
    simp [Ne.symm h]
  have h2 : (hs.filter (fun p => p.1 != k)).find? (fun p => p.1 == k') =
      hs.find? (fun p => p.1 == k') := by
    rw [List.find?_filter]
    congr 1
    funext a
    by_cases ha : a.1 = k'
    · simp [ha]
      exact h
    · simp [ha]
  rw [h1, h2]
  cases hs.find? (fun p => p.1 == k') <;> rfl

theorem foldl_headerSet_preserve (callerHs : List (String × String))
    (init : List (String × String)) (k : String)
    (h : ∀ p ∈ callerHs, p.1 ≠ k) :
    headerGet (callerHs.foldl (fun acc p => headerSet acc p.1 p.2) init) k =
      headerGet init k := by
  induction callerHs generalizing init with
  | nil => rfl
  | cons a t ih =>
    rw [List.foldl_cons,
      ih (headerSet init a.1 a.2) (fun p hp => h p (List.mem_cons_of_mem a hp))]
    exact headerGet_headerSet_other init a.1 k a.2
      (Ne.symm (h a (List.mem_cons_self a t)))

theorem foldl_headerSet_last (callerHs : List (String × String))
    (init : List (String × String)) (k v : String) :
    headerGet ((callerHs ++ [(k, v)]).foldl
      (fun acc p => headerSet acc p.1 p.2) init) k = v := by
  rw [List.foldl_append, List.foldl_cons, List.foldl_nil]
  exact headerGet_headerSet_same _ k v

theorem buildGetRequest_headers (s : ecsSession) (subUrl : String)
    (q : Option String) (hs : List (String × String)) :
    ∃ req, buildGetRequest s true subUrl q hs = some req ∧
      req.headers = hs.foldl (fun acc p => headerSet acc p.1 p.2)
        (headerSet (headerSet [] "X-SDS-AUTH-TOKEN" s.Token) "Accept"
          "application/json") := by
  cases q <;> exact ⟨_, rfl, rfl⟩

theorem buildPostRequest_headers (s : ecsSession) (subUrl : String)
    (d : Bytes) (q : Option String) (hs : List (String × String)) :
    ∃ req, buildPostRequest s true subUrl d q hs = some req ∧
      req.headers = hs.foldl (fun acc p => headerSet acc p.1 p.2)
        (headerSet (headerSet (headerSet [] "X-SDS-AUTH-TOKEN" s.Token)
          "Content-Type" "application/json") "Accept" "application/json") := by
  cases q <;> exact ⟨_, rfl, rfl⟩

theorem buildPutRequest_headers (s : ecsSession) (subUrl : String)
    (d : Bytes) (q : Option String) :
    ∃ req, buildPutRequest s true subUrl d q = some req ∧
      req.headers =
        headerSet (headerSet (headerSet [] "X-SDS-AUTH-TOKEN" s.Token)
          "Content-Type" "application/json") "Accept" "application/json" := by
  cases q <;> exact ⟨_, rfl, rfl⟩

/-- C7 counterexample: a caller-supplied header with the key
X-SDS-AUTH-TOKEN is applied after the session token header, so the
dispatched `Get` request carries the caller's value "evil", not the
session's current token "tok". -/
theorem get_token_header_overridden_cex :
    (buildGetRequest ⟨"u", "p", "http://ecs", "tok"⟩ true "/x" none
        [("X-SDS-AUTH-TOKEN", "evil")]).map
      (fun r => headerGet r.headers "X-SDS-AUTH-TOKEN") = some "evil" ∧
    (⟨"u", "p", "http://ecs", "tok"⟩ : ecsSession).Token = "tok" ∧
    ("evil" : String) ≠ "tok" := by
  refine ⟨by decide, rfl, by decide⟩

/-- C7 (amended): every dispatched request first sets X-SDS-AUTH-TOKEN to
the session's current token and Accept: application/json (Post and Put
additionally Content-Type: application/json); caller-supplied extra
headers are then merged for Get and Post only — and, being applied last,
they override these fixed headers on key collision — while Put accepts no
extra headers and therefore always carries exactly the fixed headers. -/
theorem request_headers (s : ecsSession) (subUrl : String)
    (q : Option String) (hs : List (String × String)) (d : Bytes) :
    (∀ req, buildPutRequest s true subUrl d q = some req →
      headerGet req.headers "X-SDS-AUTH-TOKEN" = s.Token ∧
      headerGet req.headers "Accept" = "application/json" ∧
      headerGet req.headers "Content-Type" = "application/json") ∧
    ((∀ p ∈ hs, p.1 ≠ "X-SDS-AUTH-TOKEN" ∧ p.1 ≠ "Accept") →
      ∀ req, buildGetRequest s true subUrl q hs = some req →
        headerGet req.headers "X-SDS-AUTH-TOKEN" = s.Token ∧
        headerGet req.headers "Accept" = "application/json") ∧
    ((∀ p ∈ hs, p.1 ≠ "X-SDS-AUTH-TOKEN" ∧ p.1 ≠ "Accept" ∧
        p.1 ≠ "Content-Type") →
      ∀ req, buildPostRequest s true subUrl d q hs = some req →
        headerGet req.headers "X-SDS-AUTH-TOKEN" = s.Token ∧
        headerGet req.headers "Accept" = "application/json" ∧
        headerGet req.headers "Content-Type" = "application/json") ∧
    (∀ k v hs0 req,
      buildGetRequest s true subUrl q (hs0 ++ [(k, v)]) = some req →
        headerGet req.headers k = v) ∧
    (∀ k v hs0 req,
      buildPostRequest s true subUrl d q (hs0 ++ [(k, v)]) = some req →
        headerGet req.headers k = v) := by
  refine ⟨fun req hreq => ?_, fun hcol req hreq => ?_,
    fun hcol req hreq => ?_, fun k v hs0 req hreq => ?_,
    fun k v hs0 req hreq => ?_⟩
  · obtain ⟨req', hreq', hhd⟩ := buildPutRequest_headers s subUrl d q
    rw [hreq'] at hreq
    injection hreq with he
    rw [← he, hhd]
    refine ⟨?_, ?_, ?_⟩
    · rw [headerGet_headerSet_other _ _ _ _ (by decide),
        headerGet_headerSet_other _ _ _ _ (by decide),
        headerGet_headerSet_same]
    · rw [headerGet_headerSet_same]
    · rw [headerGet_headerSet_other _ _ _ _ (by decide),
        headerGet_headerSet_same]
  · obtain ⟨req', hreq', hhd⟩ := buildGetRequest_headers s subUrl q hs
    rw [hreq'] at hreq
    injection hreq with he
    rw [← he, hhd]
    constructor
    · rw [foldl_headerSet_preserve hs _ _ (fun p hp => (hcol p hp).1),
        headerGet_headerSet_other _ _ _ _ (by decide),
        headerGet_headerSet_same]
    · rw [foldl_headerSet_preserve hs _ _ (fun p hp => (hcol p hp).2),
        headerGet_headerSet_same]
  · obtain ⟨req', hreq', hhd⟩ := buildPostRequest_headers s subUrl d q hs
    rw [hreq'] at hreq
    injection hreq with he
    rw [← he, hhd]
    refine ⟨?_, ?_, ?_⟩
    · rw [foldl_headerSet_preserve hs _ _ (fun p hp => (hcol p hp).1),
        headerGet_headerSet_other _ _ _ _ (by decide),
        headerGet_headerSet_other _ _ _ _ (by decide),
        headerGet_headerSet_same]
    · rw [foldl_headerSet_preserve hs _ _ (fun p hp => (hcol p hp).2.1),
        headerGet_headerSet_same]
    · rw [foldl_headerSet_preserve hs _ _ (fun p hp => (hcol p hp).2.2),
        headerGet_headerSet_other _ _ _ _ (by decide),
        headerGet_headerSet_same]
  · obtain ⟨req', hreq', hhd⟩ := buildGetRequest_headers s subUrl q
      (hs0 ++ [(k, v)])
    rw [hreq'] at hreq
    injection hreq with he
    rw [← he, hhd]
    exact foldl_headerSet_last hs0 _ k v
  · obtain ⟨req', hreq', hhd⟩ := buildPostRequest_headers s subUrl d q
      (hs0 ++ [(k, v)])
    rw [hreq'] at hreq
    injection hreq with he
    rw [← he, hhd]
    exact foldl_headerSet_last hs0 _ k v

/-- C7 witness: the concrete `Put` request carries the session token and
the two JSON headers. -/
theorem request_headers_witness :
    (buildPutRequest ⟨"u", "p", "http://ecs", "tok"⟩ true "/x" [] none).map
        (fun r => (headerGet r.headers "X-SDS-AUTH-TOKEN",
          headerGet r.headers "Accept",
          headerGet r.headers "Content-Type")) =
      some ("tok", "application/json", "application/json") := by
  cases hb : buildPutRequest ⟨"u", "p", "http://ecs", "tok"⟩ true "/x" [] none with
  | none => simp [buildPutRequest, newRequest] at hb
  | some r =>
    obtain ⟨h1, h2, h3⟩ :=
      (request_headers ⟨"u", "p", "http://ecs", "tok"⟩ "/x" none [] []).1 r hb
    simp [h1, h2, h3]

end GoEcs
